import Mathlib

/-!
Verification of the video-combining service (`src/main.py`) against its
natural-language specification.

Python strings are modelled as lists of characters (`PyStr`), Python floats
occurring as media timestamps as rationals (`ℚ`), and the external effectful
collaborators (HTTP downloads, the ffmpeg transcoder, the Whisper engine,
the pysrt parser, the filesystem) as explicit environments recording whether
each invocation succeeds.  All functions are direct translations of the
corresponding Python methods of `VideoProcessor`.
-/

/-- Python `str` values, modelled as lists of characters. -/
abbrev PyStr := List Char

/-- Coerce a Lean string literal to a `PyStr`. -/
def pys (s : String) : PyStr := s.toList

/-- Python `str.lower()` (ASCII folding; the patterns compared in the source
are all ASCII). -/
def pyLower (s : PyStr) : PyStr := s.map Char.toLower

/-- Python `str.strip()`: remove whitespace from both ends. -/
def pyStrip (s : PyStr) : PyStr :=
  (s.rdropWhile Char.isWhitespace).dropWhile Char.isWhitespace

/-- Python `str.split()` with no argument: split on runs of whitespace,
discarding empty pieces.  `cur` is the reversed current word accumulator. -/
def pySplitAux : PyStr → PyStr → List PyStr
  | [], cur => if cur.isEmpty then [] else [cur.reverse]
  | c :: s, cur =>
    if c.isWhitespace then
      if cur.isEmpty then pySplitAux s [] else cur.reverse :: pySplitAux s []
    else pySplitAux s (c :: cur)

/-- Python `str.split()` with no argument. -/
def pySplit (s : PyStr) : List PyStr := pySplitAux s []

/-- `needle in haystack` for Python strings (substring containment). -/
def containsSub (needle : PyStr) : PyStr → Bool
  | [] => needle.isPrefixOf []
  | c :: s => needle.isPrefixOf (c :: s) || containsSub needle s

/-- One word-level timestamp record produced by the speech-recognition tier:
`{'word': ..., 'start': ..., 'end': ...}`. -/
structure WordInfo where
  word : PyStr
  start : ℚ
  stop : ℚ
deriving DecidableEq

/-- One line-level subtitle record `{'text': ..., 'start': ..., 'end': ...}`. -/
structure Cue where
  text : PyStr
  start : ℚ
  stop : ℚ
deriving DecidableEq

/-- The loop body of `VideoProcessor.convert_to_line_level`.  The state is the
accumulating `current_line` (which always carries the trailing `" "` that the
source appends after every word), `line_start` and `line_end` (`none` models
Python `None`).  Emitted cues are returned in order. -/
def convertGo (max_chars : ℕ) :
    List WordInfo → PyStr → Option ℚ → Option ℚ → List Cue
  | [], current_line, line_start, line_end =>
    -- final flush: `if current_line.strip(): append(...)`
    if pyStrip current_line ≠ [] then
      [⟨pyStrip current_line, line_start.getD 0, line_end.getD 0⟩]
    else []
  | wi :: rest, current_line, line_start, line_end =>
    let word := pyStrip wi.word
    -- `if line_start is None: line_start = word_info['start']`
    let ls := line_start.getD wi.start
    if (current_line ++ word).length ≤ max_chars then
      convertGo max_chars rest (current_line ++ word ++ [' ']) (some ls) (some wi.stop)
    else
      (if pyStrip current_line ≠ [] then
        [⟨pyStrip current_line, ls, line_end.getD 0⟩]
      else []) ++ convertGo max_chars rest (word ++ [' ']) (some wi.start) (some wi.stop)

/-- `VideoProcessor.convert_to_line_level(word_level_info, max_chars=47)`:
the greedy character-budget packer turning word timestamps into cues. -/
def convert_to_line_level (word_level_info : List WordInfo) (max_chars : ℕ := 47) :
    List Cue :=
  convertGo max_chars word_level_info [] none none

/-! ### Tier 2: caller-supplied SRT script (`parse_srt_to_line_level`) -/

/-- A timestamp of a parsed SRT entry, as exposed by the external `pysrt`
library (`sub.start.hours` etc.). -/
structure SrtTime where
  hours : ℕ
  minutes : ℕ
  seconds : ℕ
  milliseconds : ℕ
deriving DecidableEq

/-- One parsed SRT entry as exposed by `pysrt.open`: a start and end
timestamp and the (possibly multi-line) entry text. -/
structure SrtEntry where
  start : SrtTime
  stop : SrtTime
  text : PyStr
deriving DecidableEq

/-- The seconds conversion used in `parse_srt_to_line_level`:
`h*3600 + m*60 + s + ms/1000.0`. -/
def srtTimeSeconds (t : SrtTime) : ℚ :=
  t.hours * 3600 + t.minutes * 60 + t.seconds + (t.milliseconds : ℚ) / 1000

/-- `VideoProcessor.parse_srt_to_line_level`, given the entries produced by
the external `pysrt` parser.  (The `try/except` around the parse is modelled
at the pipeline level: a parse failure yields `None` for the whole tier.) -/
def parse_srt_to_line_level (subs : List SrtEntry) : List Cue :=
  subs.map fun sub =>
    ⟨sub.text.map (fun ch => if ch = '\n' then ' ' else ch),
     srtTimeSeconds sub.start, srtTimeSeconds sub.stop⟩

/-! ### Tier 3: cues synthesized from descriptor text -/

/-- `VideoProcessor.generate_subtitles_from_text`: the source iterates
`i in range(0, len(words), 6)` with `start_time = (i // 6) * 3`,
`end_time = start_time + 3` and `" ".join(words[i:i+6])`; with `i = 6 * k`
this is one cue per group index `k`. -/
def generate_subtitles_from_text (text : PyStr) : List Cue :=
  let words := pySplit text
  (List.range ((words.length + 5) / 6)).map fun k =>
    ⟨List.intercalate [' '] ((words.drop (6 * k)).take 6),
     ((3 * k : ℕ) : ℚ), ((3 * k : ℕ) : ℚ) + 3⟩

/-! ### SRT time formatting (`format_srt_time`) -/

/-- Python `a % b` for floats with a positive divisor: `a - b * (a // b)`,
always in `[0, b)`. -/
def pyMod (a b : ℚ) : ℚ := a - b * ⌊a / b⌋

/-- `VideoProcessor.format_srt_time` up to rendering: the four numeric fields
`(hours, minutes, secs, millisecs)`.  Python `int(x)` truncates toward zero,
which equals `⌊x⌋` here because each argument is non-negative (`x % n` with
`n > 0` lies in `[0, n)`, and `seconds // 3600` is already an integer). -/
def format_srt_time (seconds : ℚ) : ℤ × ℤ × ℤ × ℤ :=
  (⌊seconds / 3600⌋, ⌊pyMod seconds 3600 / 60⌋, ⌊pyMod seconds 60⌋,
   ⌊pyMod seconds 1 * 1000⌋)

/-- Reading an `HH:MM:SS,mmm` timestamp back to seconds with the formula of
`parse_srt_to_line_level`. -/
def srtFieldsToSeconds : ℤ × ℤ × ℤ × ℤ → ℚ
  | (h, m, s, ms) => h * 3600 + m * 60 + s + (ms : ℚ) / 1000

/-! ### Clip descriptors (`extract_video_url`) -/

/-- Python values as far as clip descriptors are concerned: strings,
dicts (insertion-ordered key/value lists), lists, and `None`. -/
inductive PyVal where
  | str (s : PyStr)
  | dict (entries : List (PyStr × PyVal))
  | list (items : List PyVal)
  | pyNone

instance : Inhabited PyVal := ⟨.pyNone⟩

/-- Dictionary lookup (`key in d` / `d[key]`). -/
def dictGet : List (PyStr × PyVal) → PyStr → Option PyVal
  | [], _ => none
  | (k, v) :: rest, key => if k = key then some v else dictGet rest key

/-- Python truthiness for the values above (`if not video_url: continue`). -/
def pyTruthy : PyVal → Bool
  | .str s => !s.isEmpty
  | .dict entries => !entries.isEmpty
  | .list items => !items.isEmpty
  | .pyNone => false

/-- Step 4 of `extract_video_url`: the first dict value that is a string
starting with `'http'` and containing `'.mp4'`. -/
def firstMp4Field (entries : List (PyStr × PyVal)) : Option PyVal :=
  entries.findSome? fun kv =>
    match kv.2 with
    | .str v =>
      if (pys "http").isPrefixOf v && containsSub (pys ".mp4") v then
        some (.str v)
      else none
    | _ => none

/-- Diagnostic text of the uncaught `TypeError` raised by `'url' in None`
(Python: `argument of type 'NoneType' is not iterable`; quotes elided). -/
def msgTypeErrorNoneIter : PyStr :=
  pys "TypeError: argument of type NoneType is not iterable"

/-- Diagnostic text of the uncaught `TypeError` raised by subscripting a
string `output` with `'url'`. -/
def msgTypeErrorStrIdx : PyStr :=
  pys "TypeError: string indices must be integers"

/-- Diagnostic text of the uncaught `TypeError` raised by subscripting a
list `output` with `'url'`. -/
def msgTypeErrorListIdx : PyStr :=
  pys "TypeError: list indices must be integers or slices, not str"

/-- `VideoProcessor.extract_video_url`.  Precedence: top-level `url`; then
`output.url`; then `output.works[0].video.resource_without_watermark` /
`.resource`; then the first `http…mp4` string field.  A non-dict descriptor
returns `None` (`.ok none`).  The two `output` membership tests sit outside
any `try` in the source: when `output` is `None`, `'url' in None` raises an
uncaught `TypeError`; when `output` is a string (substring test) or a list
(element test) on which the `'url'` membership succeeds, the following
`['url']` subscript raises an uncaught `TypeError` (`.error …`).  A string
or list `output` that instead passes only the `'works'` membership test
raises inside the `try`, whose handler falls through to the final scan, as
does every other non-matching shape. -/
def extract_video_url (video_info : PyVal) : Except PyStr (Option PyVal) :=
  match video_info with
  | .dict entries =>
    match dictGet entries (pys "url") with
    | some v => .ok (some v)
    | none =>
      match dictGet entries (pys "output") with
      | some (.dict out) =>
        (match dictGet out (pys "url") with
        | some v => .ok (some v)
        | none =>
          match dictGet out (pys "works") with
          | some (.list (work :: _)) =>
            (match work with
            | .dict wd =>
              (match dictGet wd (pys "video") with
              | some (.dict vdata) =>
                (match dictGet vdata (pys "resource_without_watermark") with
                | some r => .ok (some r)
                | none =>
                  match dictGet vdata (pys "resource") with
                  | some r => .ok (some r)
                  | none => .ok (firstMp4Field entries))
              | _ => .ok (firstMp4Field entries))
            | _ => .ok (firstMp4Field entries))
          | _ => .ok (firstMp4Field entries))
      | some (.str s) =>
        if containsSub (pys "url") s then .error msgTypeErrorStrIdx
        else .ok (firstMp4Field entries)
      | some (.list items) =>
        if items.any (fun v => match v with | .str t => t == pys "url" | _ => false) then
          .error msgTypeErrorListIdx
        else .ok (firstMp4Field entries)
      | some .pyNone => .error msgTypeErrorNoneIter
      | none => .ok (firstMp4Field entries)
  | _ => .ok none

/-! ### Text sanitization (`clean_text_for_speech`)

Each `re.sub` pass is modelled by a single left-to-right scan that, at every
position, tries to match the pattern (given the previous character of the
original string, needed for the `\b` word boundary) and on success emits the
replacement and skips the matched characters, exactly like `re.sub` for
patterns that consume at least one character. -/

/-- One pass of `re.sub`.  `skip` counts characters of the current match that
remain to be consumed; `prev` is the character just before the scan position
in the original string.  `f prev s` returns `some (n, r)` when the pattern
matches `n ≥ 1` leading characters of `s`, to be replaced by `r`. -/
def reSub (f : Option Char → PyStr → Option (ℕ × PyStr)) :
    PyStr → ℕ → Option Char → PyStr
  | [], _, _ => []
  | c :: s, skip + 1, _ => reSub f s skip (some c)
  | c :: s, 0, prev =>
    match f prev (c :: s) with
    | some (n, r) => r ++ reSub f s (n - 1) (some c)
    | none => c :: reSub f s 0 (some c)

/-- Apply one `re.sub` pass to a whole string. -/
def applyRe (f : Option Char → PyStr → Option (ℕ × PyStr)) (s : PyStr) : PyStr :=
  reSub f s 0 none

/-- Case-insensitive prefix test (the source compiles its patterns with
`re.IGNORECASE`; all pattern characters are ASCII). -/
def ciHasPrefix (pat s : PyStr) : Bool := (pyLower pat).isPrefixOf (pyLower s)

/-- The `\w` word-character class, over the ASCII range. -/
def isWordChar (c : Char) : Bool := c.isAlphanum || c == '_'

/-- Matcher for `r'https?://\S+'`. -/
def urlMatch (_ : Option Char) (s : PyStr) : Option (ℕ × PyStr) :=
  if (pys "https://").isPrefixOf s then
    let body := (s.drop 8).takeWhile (fun c => !c.isWhitespace)
    if body.isEmpty then none else some (8 + body.length, [])
  else if (pys "http://").isPrefixOf s then
    let body := (s.drop 7).takeWhile (fun c => !c.isWhitespace)
    if body.isEmpty then none else some (7 + body.length, [])
  else none

/-- Matcher for `r'\b<term>\b'` with `re.IGNORECASE` (every term starts and
ends with a word character). -/
def wordTermMatch (term : PyStr) (prev : Option Char) (s : PyStr) :
    Option (ℕ × PyStr) :=
  if (match prev with | some p => !isWordChar p | none => true)
      && ciHasPrefix term s
      && (match s.drop term.length with | [] => true | c :: _ => !isWordChar c) then
    some (term.length, [])
  else none

/-- Matcher for `r'realistic and casual.*'` (greedy `.*`, which does not
cross a newline). -/
def racMatch (_ : Option Char) (s : PyStr) : Option (ℕ × PyStr) :=
  let pat := pys "realistic and casual"
  if ciHasPrefix pat s then
    some (pat.length + ((s.drop pat.length).takeWhile (fun c => c ≠ '\n')).length, [])
  else none

/-- Distance to the earliest occurrence of `"shot of"` (case-insensitive) on
the current line, for the lazy `.*?` of the first-person pattern. -/
def findShotOf : PyStr → Option ℕ
  | [] => none
  | c :: s =>
    if ciHasPrefix (pys "shot of") (c :: s) then some 0
    else if c = '\n' then none
    else (findShotOf s).map (· + 1)

/-- Matcher for `r'first person view.*?shot of'` with replacement
`'Видео показывает'`. -/
def fpvMatch (_ : Option Char) (s : PyStr) : Option (ℕ × PyStr) :=
  let pat := pys "first person view"
  if ciHasPrefix pat s then
    match findShotOf (s.drop pat.length) with
    | some j => some (pat.length + j + (pys "shot of").length, pys "Видео показывает")
    | none => none
  else none

/-- Matcher for `r'\s+'` with replacement `' '`. -/
def wsCollapseMatch (_ : Option Char) (s : PyStr) : Option (ℕ × PyStr) :=
  match s with
  | c :: _ =>
    if c.isWhitespace then some ((s.takeWhile Char.isWhitespace).length, [' '])
    else none
  | [] => none

/-- `VideoProcessor.clean_text_for_speech`: strip URLs, strip the tech-term
denylist as whole words, strip the boilerplate patterns, strip, collapse
whitespace, truncate to 500 characters. -/
def clean_text_for_speech (text_input : PyStr) : PyStr :=
  let t := applyRe urlMatch text_input
  let t := applyRe (wordTermMatch (pys "POV")) t
  let t := applyRe (wordTermMatch (pys "GoPro")) t
  let t := applyRe (wordTermMatch (pys "MacBook")) t
  let t := applyRe (wordTermMatch (pys "LinkedIn")) t
  let t := applyRe (wordTermMatch (pys "TikTok")) t
  let t := applyRe (wordTermMatch (pys "iPhone camera")) t
  let t := applyRe racMatch t
  let t := applyRe fpvMatch t
  let t := pyStrip t
  let t := applyRe wsCollapseMatch t
  t.take 500

/-! ### Tier-3 corpus construction (`extract_text_from_videos`) -/

/-- The `current_raw_text` computed for one descriptor: `title`/`description`
for dicts (string-valued metadata; the title-first joining of the source),
the whole string for plain string descriptors, empty otherwise. -/
def videoRawText (vi : PyVal) : PyStr :=
  match vi with
  | .dict entries =>
    let description := match dictGet entries (pys "description") with
      | some (.str s) => s
      | _ => []
    let title := match dictGet entries (pys "title") with
      | some (.str s) => s
      | _ => []
    if !description.isEmpty && !title.isEmpty then title ++ pys ". " ++ description
    else if !description.isEmpty then description
    else title
  | .str s => s
  | _ => []

/-- The per-descriptor sanitized corpus parts accumulated by
`extract_text_from_videos` (a part is kept only when both the raw text and
its cleaned form are non-empty). -/
def corpusParts (video_data : List PyVal) : List PyStr :=
  video_data.filterMap fun vi =>
    let raw := videoRawText vi
    if raw.isEmpty then none
    else
      let cleaned := clean_text_for_speech raw
      if cleaned.isEmpty then none else some cleaned

/-- `VideoProcessor.extract_text_from_videos`: `"\n\n".join(full_text_parts)`. -/
def extract_text_from_videos (video_data : List PyVal) : PyStr :=
  List.intercalate (pys "\n\n") (corpusParts video_data)

/-! ### ASS subtitle construction (`create_ass_subtitles`) -/

/-- The two visual styles declared in the ASS header. -/
inductive AssStyle where
  | Default
  | Highlight
deriving DecidableEq

/-- One `Dialogue:` line of the generated ASS file.  Times are kept as
rationals (the centisecond rendering of `seconds_to_ass_time` is
presentation only). -/
structure AssDialogue where
  layer : ℕ
  start : ℚ
  stop : ℚ
  style : AssStyle
  text : PyStr
deriving DecidableEq

/-- Python numbers, distinguishing `int` from `float`: `total_words / 2` is
true division and therefore always a `float`, which is what makes the
`:+d` format specifier raise. -/
inductive PyNum where
  | int (z : ℤ)
  | float (q : ℚ)

/-- Numeric value of a `PyNum`. -/
def PyNum.toRat : PyNum → ℚ
  | .int z => z
  | .float q => q

/-- Python subtraction: `int - int` stays `int`, anything involving a
`float` is a `float`. -/
def pyNumSub : PyNum → PyNum → PyNum
  | .int x, .int y => .int (x - y)
  | a, b => .float (a.toRat - b.toRat)

/-- Python multiplication, with the same type rule. -/
def pyNumMul : PyNum → PyNum → PyNum
  | .int x, .int y => .int (x * y)
  | a, b => .float (a.toRat * b.toRat)

/-- Python true division `/`: always a `float`. -/
def pyTrueDiv (a b : PyNum) : PyNum := .float (a.toRat / b.toRat)

/-- Render an integer with Python format spec `'+d'`. -/
def intPlusD (z : ℤ) : PyStr :=
  (if z < 0 then ['-'] else ['+']) ++ Nat.toDigits 10 z.natAbs

/-- Python `f"{x:+d}"`: the `'d'` format code is only valid for `int`;
applying it to a `float` raises `ValueError`. -/
def formatPlusD : PyNum → Except PyStr PyStr
  | .int z => .ok (intPlusD z)
  | .float _ => .error (pys "ValueError: Unknown format code d for object of type float")

/-- `VideoProcessor.create_word_highlight_effect`.
`x_offset = (word_index - total_words / 2) * 40` is a `float` (true
division), so the f-string `{x_offset:+d}` raises `ValueError` on every
call that is actually reached. -/
def create_word_highlight_effect (word : PyStr) (word_index : ℕ) (total_words : ℕ) :
    Except PyStr PyStr :=
  let x_offset := pyNumMul (pyNumSub (.int word_index) (pyTrueDiv (.int total_words) (.int 2))) (.int 40)
  match formatPlusD x_offset with
  | .error e => .error e
  | .ok off =>
    .ok (pys "\x7b\\pos(960" ++ off ++ pys ",540)\\c&H0000FFFF&\\t(\\c&H00FFFFFF&)\x7d" ++ word)

/-- `word_index = next((i for i, w in enumerate(words_in_line)
if w.lower() == word.lower()), 0)`. -/
def firstMatchIdx (words_in_line : List PyStr) (word : PyStr) : ℕ :=
  match words_in_line.findIdx? (fun w => pyLower w == pyLower word) with
  | some i => i
  | none => 0

/-- The loop of `VideoProcessor.add_word_highlights` over `word_level_info`.
A word is highlighted when its start time lies in the cue's window and it
matches a token of the cue case-insensitively; the effect construction then
raises, which propagates (`Except.error`). -/
def awhGo (line : Cue) (words_in_line : List PyStr) :
    List AssDialogue → List WordInfo → Except PyStr (List AssDialogue)
  | acc, [] => .ok acc
  | acc, wi :: rest =>
    let word := pyStrip wi.word
    if line.start ≤ wi.start ∧ wi.start ≤ line.stop
        ∧ pyLower word ∈ words_in_line.map pyLower then
      match create_word_highlight_effect word
          (firstMatchIdx words_in_line word) words_in_line.length with
      | .error e => .error e
      | .ok highlight_text =>
        awhGo line words_in_line
          (acc ++ [⟨1, wi.start, wi.stop, .Highlight, highlight_text⟩]) rest
    else awhGo line words_in_line acc rest

/-- `VideoProcessor.add_word_highlights`.  In the source this function
appends to its `ass_content` parameter with `+=`, which only rebinds the
local name (Python strings are immutable): the caller never sees the
appended entries.  The returned value models what the local accumulator
held; only the exception can escape to the caller. -/
def add_word_highlights (ass_content : List AssDialogue) (line : Cue)
    (word_level_info : List WordInfo) : Except PyStr (List AssDialogue) :=
  awhGo line (pySplit line.text) ass_content word_level_info

/-- Python truthiness of the optional cue list (`None` and `[]` are falsy). -/
def cuesTruthy : Option (List Cue) → Bool
  | some (_ :: _) => true
  | _ => false

/-- Python truthiness of the optional word-timing list. -/
def wordsTruthy : Option (List WordInfo) → Bool
  | some (_ :: _) => true
  | _ => false

/-- The per-cue loop of `create_ass_subtitles`: one `Default` full-line entry
per cue, then a call to `add_word_highlights` whose appended result is
discarded (see `add_word_highlights`) but whose exception propagates. -/
def assBody (word_level_info : Option (List WordInfo)) :
    List Cue → List AssDialogue → Except PyStr (List AssDialogue)
  | [], acc => .ok acc
  | line :: rest, acc =>
    let acc := acc ++ [⟨0, line.start, line.stop, .Default, line.text⟩]
    if wordsTruthy word_level_info then
      match add_word_highlights acc line (word_level_info.getD []) with
      | .error e => .error e
      | .ok _ => assBody word_level_info rest acc
    else assBody word_level_info rest acc

/-- `VideoProcessor.create_ass_subtitles`: returns the dialogue entries of
the written file, or `none` when the surrounding `try/except` catches an
exception (a `ValueError` from the highlight effect, or a file-write
failure, modelled by `writeOk`). -/
def create_ass_subtitles (writeOk : Bool) (word_level_info : Option (List WordInfo))
    (line_level_subtitles : Option (List Cue)) : Option (List AssDialogue) :=
  let body :=
    if cuesTruthy line_level_subtitles then
      assBody word_level_info (line_level_subtitles.getD []) []
    else .ok []
  match body with
  | .error _ => none
  | .ok content => if writeOk then some content else none

/-! ### Rendering and the fallback chain -/

/-- Which ffmpeg command produced the final file. -/
inductive OutKind where
  | scrollingAss
  | scrollingNoSubs
  | fallbackSrt
  | fallbackCopy
deriving DecidableEq

/-- The ffmpeg invocations of the rendering stage, each recording whether an
audio stream was included in the output. -/
inductive FfmpegCall where
  | burnAss (hasAudio : Bool)
  | copyPrimary (hasAudio : Bool)
  | burnSrt (hasAudio : Bool)
  | copyFallback (hasAudio : Bool)
deriving DecidableEq

/-- The audio flag of a call. -/
def FfmpegCall.audio : FfmpegCall → Bool
  | .burnAss a => a
  | .copyPrimary a => a
  | .burnSrt a => a
  | .copyFallback a => a

/-- Success/failure of each external effect of the rendering stage. -/
structure RenderEnv where
  assWriteOk : Bool
  primaryBurnOk : Bool
  primaryCopyOk : Bool
  srtWriteOk : Bool
  fallbackBurnOk : Bool
  fallbackCopyOk : Bool
deriving DecidableEq

/-- `VideoProcessor.create_fallback_video`: with truthy cues, write the
simple SRT; if written, burn it in — a failing burn raises, caught by the
handler which re-raises fatally (`none`); if the SRT could not be written,
or cues are absent, copy without subtitles, whose failure is likewise
fatal.  The trace lists the ffmpeg invocations attempted. -/
def create_fallback_video (env : RenderEnv) (line_level_subtitles : Option (List Cue))
    (has_audio : Bool) : List FfmpegCall × Option OutKind :=
  if cuesTruthy line_level_subtitles then
    if env.srtWriteOk then
      ([.burnSrt has_audio], if env.fallbackBurnOk then some .fallbackSrt else none)
    else
      ([.copyFallback has_audio], if env.fallbackCopyOk then some .fallbackCopy else none)
  else
    ([.copyFallback has_audio], if env.fallbackCopyOk then some .fallbackCopy else none)

/-- `VideoProcessor.create_scrolling_subtitles_video`: if the ASS file was
produced, burn it in; otherwise copy without subtitles inside the primary
attempt.  An ffmpeg error in either invocation is caught and routed to
`create_fallback_video`. -/
def create_scrolling_subtitles_video (env : RenderEnv)
    (word_level_info : Option (List WordInfo)) (line_level_subtitles : Option (List Cue))
    (has_audio : Bool) : List FfmpegCall × Option OutKind :=
  match create_ass_subtitles env.assWriteOk word_level_info line_level_subtitles with
  | some _ =>
    if env.primaryBurnOk then ([.burnAss has_audio], some .scrollingAss)
    else
      let fb := create_fallback_video env line_level_subtitles has_audio
      (.burnAss has_audio :: fb.1, fb.2)
  | none =>
    if env.primaryCopyOk then ([.copyPrimary has_audio], some .scrollingNoSubs)
    else
      let fb := create_fallback_video env line_level_subtitles has_audio
      (.copyPrimary has_audio :: fb.1, fb.2)

/-! ### The per-task pipeline (`process_videos`) -/

/-- `VideoProcessor.check_audio_exists`: any probed stream with
`codec_type == 'audio'`; a probe error is caught and yields `False`. -/
def check_audio_exists (probe : Except PyStr (List PyStr)) : Bool :=
  match probe with
  | .ok streams => streams.any (fun s => s == pys "audio")
  | .error _ => false

/-- Pipeline stages reached by a run (used to state which stages were never
attempted). -/
inductive PipelineStage where
  | download
  | combine
  | captions
  | render
deriving DecidableEq

/-- Task status values. -/
inductive TStatus where
  | processing
  | completed
  | error
deriving DecidableEq

/-- The terminal record of a task run. -/
structure TaskState where
  status : TStatus
  progress : ℕ
  errorMsg : Option PyStr
  output : Option OutKind
deriving DecidableEq

/-- Outcomes of the external collaborators for one run: per-URL download
success, combination success, the stream probe of the combined file, the
Whisper engine, saving/parsing the webhook SRT, and the rendering effects. -/
structure PipelineEnv where
  fetchOk : PyVal → Bool
  combineOk : Bool
  probe : Except PyStr (List PyStr)
  whisperAvailable : Bool
  whisperWords : Option (List WordInfo)
  srtSaveOk : Bool
  srtParsed : Option (List SrtEntry)
  render : RenderEnv

/-- The download loop of `download_and_combine_videos`: descriptors whose
`extract_video_url` is falsy are skipped (`continue`), failed downloads are
skipped, and an uncaught `TypeError` from `extract_video_url` aborts the
loop and propagates (`.error`), whatever was fetched before it. -/
def downloadedUrls (env : PipelineEnv) : List PyVal → Except PyStr (List PyVal)
  | [] => .ok []
  | vi :: rest =>
    match extract_video_url vi with
    | .error e => .error e
    | .ok none => downloadedUrls env rest
    | .ok (some u) =>
      if pyTruthy u && env.fetchOk u then
        match downloadedUrls env rest with
        | .error e => .error e
        | .ok us => .ok (u :: us)
      else downloadedUrls env rest

/-- Truthiness of the optional webhook subtitle text. -/
def strTruthy : Option PyStr → Bool
  | some (_ :: _) => true
  | _ => false

/-- Error message raised when no clip could be downloaded. -/
def msgNoVideos : PyStr := pys "Не удалось загрузить ни одного видео"

/-- Error message recorded when clip combination raises. -/
def msgCombine : PyStr := pys "Ошибка объединения видео"

/-- Error message recorded when the fallback renderer raises fatally. -/
def msgFatal : PyStr := pys "Критическая ошибка: невозможно создать видео"

/-- `VideoProcessor.process_videos`: the orchestrated run.  Returns the
terminal task state, the stages reached, and the rendering ffmpeg calls.
Progress is 0 until download+combine succeed, 20 then, 70 before rendering;
a fatal exception is caught by the top-level handler, which records the
message (the propagated `TypeError` text when URL extraction raises) and
leaves progress at its last checkpoint. -/
def process_videos (env : PipelineEnv) (video_data : List PyVal)
    (subtitles_content : Option PyStr) : TaskState × List PipelineStage × List FfmpegCall :=
  match downloadedUrls env video_data with
  | .error e => (⟨.error, 0, some e, none⟩, [.download], [])
  | .ok files =>
  if files.isEmpty then
    (⟨.error, 0, some msgNoVideos, none⟩, [.download], [])
  else if !env.combineOk then
    (⟨.error, 0, some msgCombine, none⟩, [.download, .combine], [])
  else
    let has_audio := check_audio_exists env.probe
    let word_level_info : Option (List WordInfo) :=
      if has_audio && env.whisperAvailable then env.whisperWords else none
    let lines1 : Option (List Cue) :=
      if wordsTruthy word_level_info then
        some (convert_to_line_level (word_level_info.getD []) 47)
      else none
    let lines2 : Option (List Cue) :=
      if !wordsTruthy word_level_info && strTruthy subtitles_content then
        (if env.srtSaveOk then env.srtParsed.map parse_srt_to_line_level else none)
      else lines1
    let lines3 : Option (List Cue) :=
      if !cuesTruthy lines2 then
        (let full_text := extract_text_from_videos video_data
         if !full_text.isEmpty then some (generate_subtitles_from_text full_text)
         else lines2)
      else lines2
    let r := create_scrolling_subtitles_video env.render word_level_info lines3 has_audio
    match r.2 with
    | some o =>
      (⟨.completed, 100, none, some o⟩, [.download, .combine, .captions, .render], r.1)
    | none =>
      (⟨.error, 70, some msgFatal, none⟩, [.download, .combine, .captions, .render], r.1)

/-! ### Concrete inputs used by witnesses and counterexamples -/

/-- Rendering environment of the C2 counterexample: writing the ASS file
fails, every ffmpeg invocation would succeed. -/
def c2env : RenderEnv := ⟨false, true, true, true, true, true⟩

/-- Rendering environment of the C2 amended-claim witness. -/
def c2wenv : RenderEnv := ⟨false, true, true, true, true, true⟩

/-- Rendering environment of the C3 counterexample: the SRT file is written,
the fallback burn-in fails, the no-subtitle copy would succeed. -/
def c3env : RenderEnv := ⟨true, true, true, true, false, true⟩

/-- Rendering environment of the C3 amended-claim witness. -/
def c3wenv : RenderEnv := ⟨true, true, true, true, false, true⟩

/-- A cue used by the rendering counterexamples. -/
def cueHello : Cue := ⟨pys "Hello world", 0, 3⟩

/-- A word timing matching `cueHello` on both highlight conditions. -/
def wiHello : WordInfo := ⟨pys "Hello", 1/2, 1⟩

/-- Pipeline environment of the C4 witness: every download fails. -/
def c4env : PipelineEnv :=
  ⟨fun _ => false, true, .error (pys "probe error"), false, none, true, none,
   ⟨true, true, true, true, true, true⟩⟩

/-- Descriptors of the C4 witness. -/
def c4videos : List PyVal :=
  [.dict [(pys "url", .str (pys "http://example.com/a.mp4"))], .str (pys "plain text")]

/-- A malformed descriptor (`{'output': None}`) on which the source's
`'url' in video_info['output']` raises an uncaught `TypeError`. -/
def c4badvideos : List PyVal := [.dict [(pys "output", .pyNone)]]

/-- Pipeline environment of the C9 witness: the stream probe of the combined
file raises, everything else succeeds. -/
def c9env : PipelineEnv :=
  ⟨fun _ => true, true, .error (pys "ffprobe failed"), true, some [⟨pys "Hello", 1/2, 1⟩],
   true, none, ⟨true, true, true, true, true, true⟩⟩

/-- Descriptors of the C9 witness. -/
def c9videos : List PyVal :=
  [.dict [(pys "url", .str (pys "http://example.com/a.mp4"))]]

/-- Pipeline environment of the C10 witness. -/
def c10env : PipelineEnv :=
  ⟨fun _ => true, true, .ok [pys "video"], false, none, true, none,
   ⟨true, true, true, true, true, true⟩⟩

/-- The plain-string descriptor of the C10 witness. -/
def c10text : PyStr := pys "Just a plain description"

/-- A 48-character word, one more than the 47-character budget. -/
def longWord : PyStr := pys "aaaaaaaaaaaaaaaaaaaaaaaaaaaaaaaaaaaaaaaaaaaaaaaa"

section StripLemmas

theorem pyStrip_nil : pyStrip [] = [] := rfl

theorem pyStrip_append_space (s : PyStr) : pyStrip (s ++ [' ']) = pyStrip s := by
  unfold pyStrip
  rw [List.rdropWhile_concat, if_pos (by decide)]

theorem pyStrip_length_le (s : PyStr) : (pyStrip s).length ≤ s.length := by
  unfold pyStrip
  have h1 : ((s.rdropWhile Char.isWhitespace).dropWhile Char.isWhitespace).length
      ≤ (s.rdropWhile Char.isWhitespace).length :=
    (List.dropWhile_suffix Char.isWhitespace).sublist.length_le
  have h2 : (s.rdropWhile Char.isWhitespace).length ≤ s.length :=
    (List.rdropWhile_prefix Char.isWhitespace s).sublist.length_le
  exact le_trans h1 h2

theorem dropWhile_reverse_eq_self (p : Char → Bool) (l : List Char)
    (h : List.dropWhile p l.reverse = l.reverse) :
    List.dropWhile p (List.dropWhile p l).reverse = (List.dropWhile p l).reverse := by
  cases hd : (List.dropWhile p l).reverse with
  | nil => simp
  | cons c rest =>
    have hsplit : l.reverse = c :: (rest ++ (List.takeWhile p l).reverse) := by
      conv_lhs => rw [← List.takeWhile_append_dropWhile p l]
      rw [List.reverse_append, hd, List.cons_append]
    rw [hsplit] at h
    have hc : p c = false := by
      by_contra hc
      simp only [Bool.not_eq_false] at hc
      rw [List.dropWhile_cons_of_pos hc] at h
      have hle : (List.dropWhile p (rest ++ (List.takeWhile p l).reverse)).length
          ≤ (rest ++ (List.takeWhile p l).reverse).length :=
        (List.dropWhile_suffix p).sublist.length_le
      rw [h] at hle
      simp at hle
    rw [List.dropWhile_cons_of_neg (by simp [hc])]

theorem pyStrip_idem (s : PyStr) : pyStrip (pyStrip s) = pyStrip s := by
  unfold pyStrip
  set r := s.rdropWhile Char.isWhitespace with hr
  have h0 : List.rdropWhile Char.isWhitespace r = r := by
    rw [hr]
    exact List.rdropWhile_idempotent Char.isWhitespace s
  unfold List.rdropWhile at h0 ⊢
  rw [List.reverse_eq_iff] at h0
  rw [dropWhile_reverse_eq_self Char.isWhitespace r h0, List.reverse_reverse,
    List.dropWhile_idempotent]

end StripLemmas

/-- Invariant of the packer loop: every emitted cue is within the budget,
or is the strip of the accumulator the loop was entered with, or is the
strip of a single input word. -/
theorem convertGo_mem (mc : ℕ) (ws : List WordInfo) :
    ∀ cl ls le c, c ∈ convertGo mc ws cl ls le →
      c.text.length ≤ mc ∨ c.text = pyStrip cl ∨ ∃ w ∈ ws, c.text = pyStrip w.word := by
  induction ws with
  | nil =>
    intro cl ls le c hc
    simp only [convertGo] at hc
    split at hc
    · rw [List.mem_singleton] at hc
      subst hc
      exact Or.inr (Or.inl rfl)
    · simp at hc
  | cons wi rest ih =>
    intro cl ls le c hc
    simp only [convertGo] at hc
    split at hc
    next hlen =>
      rcases ih _ _ _ c hc with h | h | ⟨w, hw, hww⟩
      · exact Or.inl h
      · left
        rw [h, pyStrip_append_space]
        exact le_trans (pyStrip_length_le _) hlen
      · exact Or.inr (Or.inr ⟨w, List.mem_cons_of_mem _ hw, hww⟩)
    next hlen =>
      rw [List.mem_append] at hc
      rcases hc with hc | hc
      · split at hc
        · rw [List.mem_singleton] at hc
          subst hc
          exact Or.inr (Or.inl rfl)
        · simp at hc
      · rcases ih _ _ _ c hc with h | h | ⟨w, hw, hww⟩
        · exact Or.inl h
        · refine Or.inr (Or.inr ⟨wi, List.mem_cons_self _ _, ?_⟩)
          rw [h, pyStrip_append_space, pyStrip_idem]
        · exact Or.inr (Or.inr ⟨w, List.mem_cons_of_mem _ hw, hww⟩)

/-- C5: for every input sequence of word timings, every cue emitted by
`convert_to_line_level` with the default budget 47 has text of length at
most 47, except that a cue consisting of a single (stripped) input word may
exceed the budget and is still emitted alone. -/
theorem c5_packer_budget (ws : List WordInfo) (c : Cue)
    (hc : c ∈ convert_to_line_level ws 47) :
    c.text.length ≤ 47 ∨ ∃ w ∈ ws, c.text = pyStrip w.word := by
  rcases convertGo_mem 47 ws [] none none c hc with h | h | h
  · exact Or.inl h
  · rw [pyStrip_nil] at h
    exact Or.inl (by rw [h]; exact Nat.zero_le _)
  · exact Or.inr h

/-- Witness for C5: a 48-character word is emitted alone, over budget. -/
theorem c5_packer_budget_witness :
    (⟨longWord, 0, 1⟩ : Cue) ∈ convert_to_line_level [⟨longWord, 0, 1⟩] 47
    ∧ ((⟨longWord, 0, 1⟩ : Cue).text.length ≤ 47
      ∨ ∃ w ∈ [(⟨longWord, 0, 1⟩ : WordInfo)], (⟨longWord, 0, 1⟩ : Cue).text = pyStrip w.word) :=
  ⟨by decide, c5_packer_budget [⟨longWord, 0, 1⟩] _ (by decide)⟩

/-- C6: each parsed caption entry yields a cue whose start and end are
`h*3600 + m*60 + s + ms/1000` of the entry's timestamps and whose text
replaces newlines by spaces; the two-entry Scenario A script yields exactly
`[{"Hello world",0,3},{"Second line",3,6}]`. -/
theorem c6_srt_parse :
    (∀ (subs : List SrtEntry) (k : ℕ),
      (parse_srt_to_line_level subs)[k]? = (subs[k]?).map fun sub =>
        ⟨sub.text.map (fun ch => if ch = '\n' then ' ' else ch),
         (sub.start.hours : ℚ) * 3600 + (sub.start.minutes : ℚ) * 60
           + (sub.start.seconds : ℚ) + (sub.start.milliseconds : ℚ) / 1000,
         (sub.stop.hours : ℚ) * 3600 + (sub.stop.minutes : ℚ) * 60
           + (sub.stop.seconds : ℚ) + (sub.stop.milliseconds : ℚ) / 1000⟩)
    ∧ parse_srt_to_line_level
        [⟨⟨0, 0, 0, 0⟩, ⟨0, 0, 3, 0⟩, pys "Hello world"⟩,
         ⟨⟨0, 0, 3, 0⟩, ⟨0, 0, 6, 0⟩, pys "Second line"⟩] =
      [⟨pys "Hello world", 0, 3⟩, ⟨pys "Second line", 3, 6⟩] := by
  constructor
  · intro subs k
    cases h : subs[k]? <;> simp [parse_srt_to_line_level, srtTimeSeconds, h]
  · with_unfolding_all decide

/-- C7: Tier-3 synthesis forms one cue per 6-word group: group `k` has the
group's words joined by single spaces, `start = 3*k`, `end = 3*k + 3`; the
7-word Scenario B corpus yields exactly
`[{"a b c d e f",0,3},{"g",3,6}]`. -/
theorem c7_text_groups :
    (∀ (text : PyStr) (k : ℕ),
      (generate_subtitles_from_text text)[k]? =
        if 6 * k < (pySplit text).length then
          some ⟨List.intercalate [' '] (((pySplit text).drop (6 * k)).take 6),
                ((3 * k : ℕ) : ℚ), ((3 * k : ℕ) : ℚ) + 3⟩
        else none)
    ∧ generate_subtitles_from_text (pys "a b c d e f g") =
        [⟨pys "a b c d e f", 0, 3⟩, ⟨pys "g", 3, 6⟩] := by
  constructor
  · intro text k
    simp only [generate_subtitles_from_text, List.getElem?_map]
    by_cases h6 : 6 * k < (pySplit text).length
    · have hk : k < ((pySplit text).length + 5) / 6 := by omega
      rw [List.getElem?_range hk, if_pos h6]
      rfl
    · have hk : ((List.range (((pySplit text).length + 5) / 6))[k]? : Option ℕ) = none := by
        rw [List.getElem?_eq_none]
        rw [List.length_range]
        omega
      rw [hk, if_neg h6]
      rfl
  · with_unfolding_all decide

/-- C8: formatting a non-negative time with `format_srt_time` and reading
the timestamp back with the parsing formula reproduces the value within one
millisecond. -/
theorem c8_round_trip (t : ℚ) (_ht : 0 ≤ t) :
    |t - srtFieldsToSeconds (format_srt_time t)| ≤ 1 / 1000 := by
  have hs : ⌊pyMod t 60⌋ = ⌊t⌋ - 60 * ⌊t / 60⌋ := by
    have h : pyMod t 60 = t - ((60 * ⌊t / 60⌋ : ℤ) : ℚ) := by
      unfold pyMod; push_cast; ring
    rw [h, Int.floor_sub_int]
  have hm : ⌊pyMod t 3600 / 60⌋ = ⌊t / 60⌋ - 60 * ⌊t / 3600⌋ := by
    have h : pyMod t 3600 / 60 = t / 60 - ((60 * ⌊t / 3600⌋ : ℤ) : ℚ) := by
      unfold pyMod; push_cast; ring
    rw [h, Int.floor_sub_int]
  have hms : ⌊pyMod t 1 * 1000⌋ = ⌊1000 * t⌋ - 1000 * ⌊t⌋ := by
    have h : pyMod t 1 * 1000 = 1000 * t - ((1000 * ⌊t⌋ : ℤ) : ℚ) := by
      unfold pyMod; rw [div_one]; push_cast; ring
    rw [h, Int.floor_sub_int]
  have h1 : ((⌊1000 * t⌋ : ℤ) : ℚ) ≤ 1000 * t := Int.floor_le _
  have h2 : 1000 * t < ((⌊1000 * t⌋ : ℤ) : ℚ) + 1 := Int.lt_floor_add_one _
  simp only [format_srt_time, srtFieldsToSeconds, hs, hm, hms]
  rw [abs_le]
  constructor <;> · push_cast; linarith

/-- Witness for C8 at `t = 5/2`. -/
theorem c8_round_trip_witness :
    (0 : ℚ) ≤ 5 / 2
    ∧ |(5 / 2 : ℚ) - srtFieldsToSeconds (format_srt_time (5 / 2))| ≤ 1 / 1000 :=
  ⟨by with_unfolding_all decide, c8_round_trip (5 / 2) (by with_unfolding_all decide)⟩

/-- C1 (code bug): a word timing that satisfies both highlight conditions
(start time inside the cue's window, case-insensitive token match) makes
`create_ass_subtitles` fail — `create_word_highlight_effect` formats the
`float` offset `(word_index - total_words/2) * 40` with `:+d`, raising
`ValueError`, caught by the handler which returns `None` — so the written
subtitle definition never contains a highlight entry; and without a matching
word timing the written definition holds only `Default` full-line entries,
because `add_word_highlights` appends to a local string whose value is
discarded. -/
theorem c1_highlight_lost :
    (cueHello.start ≤ wiHello.start ∧ wiHello.start ≤ cueHello.stop
      ∧ pyLower (pyStrip wiHello.word) ∈ (pySplit cueHello.text).map pyLower)
    ∧ create_ass_subtitles true (some [wiHello]) (some [cueHello]) = none
    ∧ create_ass_subtitles true (some [⟨pys "zzz", 1/2, 1⟩]) (some [cueHello]) =
        some [⟨0, 0, 3, .Default, pys "Hello world"⟩] := by
  refine ⟨⟨by with_unfolding_all decide, by with_unfolding_all decide,
    by with_unfolding_all decide⟩, by with_unfolding_all decide,
    by with_unfolding_all decide⟩

/-- C2 counterexample: ASS construction fails (file write error) while cues
are present and the SRT write would succeed, yet the renderer performs a
direct no-subtitle copy — no plain-SRT fallback step is attempted. -/
theorem c2_counterexample :
    create_ass_subtitles c2env.assWriteOk none (some [cueHello]) = none
    ∧ cuesTruthy (some [cueHello]) = true
    ∧ c2env.srtWriteOk = true
    ∧ create_scrolling_subtitles_video c2env none (some [cueHello]) true =
        ([.copyPrimary true], some .scrollingNoSubs) := by
  refine ⟨by with_unfolding_all decide, by with_unfolding_all decide,
    by with_unfolding_all decide, by with_unfolding_all decide⟩

/-- C2 (amended): when construction of the animated subtitle definition
fails, the renderer performs a direct no-subtitle copy as the primary
output; the fallback chain (plain SRT first) is entered only when that copy
invocation itself fails. -/
theorem c2_amended (env : RenderEnv) (wl : Option (List WordInfo))
    (lines : Option (List Cue)) (a : Bool)
    (hfail : create_ass_subtitles env.assWriteOk wl lines = none) :
    create_scrolling_subtitles_video env wl lines a =
      if env.primaryCopyOk then ([.copyPrimary a], some .scrollingNoSubs)
      else (.copyPrimary a :: (create_fallback_video env lines a).1,
            (create_fallback_video env lines a).2) := by
  by_cases hp : env.primaryCopyOk <;>
    simp [create_scrolling_subtitles_video, hfail, hp]

/-- Witness for the amended C2. -/
theorem c2_amended_witness :
    create_ass_subtitles c2wenv.assWriteOk none none = none
    ∧ create_scrolling_subtitles_video c2wenv none none true =
        (if c2wenv.primaryCopyOk then ([.copyPrimary true], some .scrollingNoSubs)
         else (.copyPrimary true :: (create_fallback_video c2wenv none true).1,
               (create_fallback_video c2wenv none true).2)) :=
  ⟨by with_unfolding_all decide, c2_amended c2wenv none none true (by with_unfolding_all decide)⟩

/-- C3 counterexample: the fallback burn-in fails while the no-subtitle copy
would succeed, yet the fallback raises fatally (`none`) with only the
burn-in in its trace — no copy is attempted. -/
theorem c3_counterexample :
    create_fallback_video c3env (some [cueHello]) true = ([.burnSrt true], none)
    ∧ c3env.fallbackCopyOk = true :=
  ⟨by with_unfolding_all decide, by with_unfolding_all decide⟩

/-- C3 (amended): with truthy cues and a written SRT, the fallback attempts
only the SRT burn-in and a burn failure is immediately fatal; the
no-subtitle copy is attempted only when cues are absent or the SRT write
failed, and its failure is fatal. -/
theorem c3_amended (env : RenderEnv) (lines : Option (List Cue)) (a : Bool) :
    (cuesTruthy lines = true → env.srtWriteOk = true →
      create_fallback_video env lines a =
        ([.burnSrt a], if env.fallbackBurnOk then some .fallbackSrt else none))
    ∧ (cuesTruthy lines = false ∨ env.srtWriteOk = false →
      create_fallback_video env lines a =
        ([.copyFallback a], if env.fallbackCopyOk then some .fallbackCopy else none)) := by
  constructor
  · intro h1 h2
    simp [create_fallback_video, h1, h2]
  · rintro (h | h) <;> simp [create_fallback_video, h]

/-- Witness for the amended C3. -/
theorem c3_amended_witness :
    create_fallback_video c3wenv (some [cueHello]) true = ([.burnSrt true], none) := by
  have h := (c3_amended c3wenv (some [cueHello]) true).1
    (by with_unfolding_all decide) (by with_unfolding_all decide)
  rw [h]
  with_unfolding_all decide

/-- C4: when no descriptor yields a successfully fetched clip, the task ends
in `error` at progress 0 with neither combination nor caption resolution
nor rendering reached; the message is the acquisition message when every
descriptor resolves without raising (to nothing, or to a URL that is falsy
or fails to download), and the propagated `TypeError` text when URL
extraction raises mid-loop — an exception that likewise arises inside the
acquisition stage. -/
theorem c4_zero_clips (env : PipelineEnv) (video_data : List PyVal)
    (subs : Option PyStr) :
    ((∀ vi ∈ video_data,
        (match extract_video_url vi with
        | .ok ou => ou.all (fun u => !(pyTruthy u && env.fetchOk u))
        | .error _ => false) = true) →
      process_videos env video_data subs =
        (⟨.error, 0, some msgNoVideos, none⟩, [.download], []))
    ∧ (∀ e, downloadedUrls env video_data = .error e →
      process_videos env video_data subs =
        (⟨.error, 0, some e, none⟩, [.download], [])) := by
  constructor
  · intro h
    have hd : downloadedUrls env video_data = .ok [] := by
      induction video_data with
      | nil => rfl
      | cons vi rest ih =>
        have hv := h vi (List.mem_cons_self _ _)
        have hrest := ih fun w hw => h w (List.mem_cons_of_mem _ hw)
        cases hx : extract_video_url vi with
        | error e => rw [hx] at hv; simp at hv
        | ok ou =>
          rw [hx] at hv
          cases ou with
          | none => simpa [downloadedUrls, hx] using hrest
          | some u =>
            simp only [Option.all_some, Bool.not_eq_true'] at hv
            simpa [downloadedUrls, hx, hv] using hrest
    simp [process_videos, hd]
  · intro e he
    simp [process_videos, he]

/-- Witness for C4: the first branch on descriptors that resolve without
fetching, the second on `{'output': None}`, where URL extraction raises. -/
theorem c4_zero_clips_witness :
    ((∀ vi ∈ c4videos,
        (match extract_video_url vi with
        | .ok ou => ou.all (fun u => !(pyTruthy u && c4env.fetchOk u))
        | .error _ => false) = true)
      ∧ process_videos c4env c4videos none =
          (⟨.error, 0, some msgNoVideos, none⟩, [.download], []))
    ∧ (downloadedUrls c4env c4badvideos = .error msgTypeErrorNoneIter
      ∧ process_videos c4env c4badvideos none =
          (⟨.error, 0, some msgTypeErrorNoneIter, none⟩, [.download], [])) :=
  ⟨⟨by with_unfolding_all decide,
    (c4_zero_clips c4env c4videos none).1 (by with_unfolding_all decide)⟩,
   ⟨rfl, (c4_zero_clips c4env c4badvideos none).2 msgTypeErrorNoneIter rfl⟩⟩

/-- With no word timings, the per-cue ASS loop cannot raise. -/
theorem assBody_none_ok (cues : List Cue) :
    ∀ acc, ∃ content, assBody none cues acc = .ok content := by
  induction cues with
  | nil => intro acc; exact ⟨acc, rfl⟩
  | cons line rest ih =>
    intro acc
    simpa [assBody, wordsTruthy] using ih _

/-- With no word timings and a successful file write, `create_ass_subtitles`
produces a subtitle definition. -/
theorem create_ass_none_words (lines : Option (List Cue)) :
    ∃ content, create_ass_subtitles true none lines = some content := by
  unfold create_ass_subtitles
  by_cases hc : cuesTruthy lines
  · obtain ⟨c, hcc⟩ := assBody_none_ok (lines.getD []) []
    rw [if_pos hc, hcc]
    exact ⟨c, rfl⟩
  · rw [if_neg hc]
    exact ⟨[], rfl⟩

/-- With no word timings, a writable ASS file and a successful primary
burn-in, the renderer burns the animated subtitles in one call. -/
theorem create_scrolling_none_words (env1 : RenderEnv) (lines : Option (List Cue))
    (a : Bool) (hass : env1.assWriteOk = true) (hburn : env1.primaryBurnOk = true) :
    create_scrolling_subtitles_video env1 none lines a =
      ([.burnAss a], some .scrollingAss) := by
  obtain ⟨content, hcc⟩ := create_ass_none_words lines
  unfold create_scrolling_subtitles_video
  rw [hass, hcc, hburn]
  simp

/-- C9: a failing stream probe makes the audio check return `false` rather
than failing the task; the run completes (given the other collaborators
succeed) and every rendering invocation omits the audio stream. -/
theorem c9_probe_error (env : PipelineEnv) (video_data : List PyVal)
    (subs : Option PyStr) (e : PyStr)
    (hprobe : env.probe = .error e)
    (hdl : ∃ f fs, downloadedUrls env video_data = .ok (f :: fs))
    (hcomb : env.combineOk = true)
    (hass : env.render.assWriteOk = true)
    (hburn : env.render.primaryBurnOk = true) :
    check_audio_exists env.probe = false
    ∧ (process_videos env video_data subs).1.status = .completed
    ∧ ∀ call ∈ (process_videos env video_data subs).2.2, call.audio = false := by
  have haudio : check_audio_exists env.probe = false := by rw [hprobe]; rfl
  obtain ⟨f, fs, hm⟩ := hdl
  have heq : process_videos env video_data subs =
      (⟨.completed, 100, none, some .scrollingAss⟩,
       [.download, .combine, .captions, .render], [.burnAss false]) := by
    unfold process_videos
    rw [hm, hcomb]
    simp only [List.isEmpty_cons, Bool.false_eq_true, if_false, Bool.not_true,
      haudio, Bool.false_and, wordsTruthy]
    rw [create_scrolling_none_words env.render _ false hass hburn]
  refine ⟨haudio, by rw [heq], ?_⟩
  rw [heq]
  intro call hc
  simp only [List.mem_singleton] at hc
  subst hc
  rfl

/-- Witness for C9: one fetchable clip, a failing probe, all later effects
succeeding. -/
theorem c9_probe_error_witness :
    c9env.probe = .error (pys "ffprobe failed")
    ∧ (∃ f fs, downloadedUrls c9env c9videos = .ok (f :: fs))
    ∧ (check_audio_exists c9env.probe = false
      ∧ (process_videos c9env c9videos none).1.status = .completed
      ∧ ∀ call ∈ (process_videos c9env c9videos none).2.2, call.audio = false) :=
  ⟨rfl, ⟨.str (pys "http://example.com/a.mp4"), [], rfl⟩,
   c9_probe_error c9env c9videos none (pys "ffprobe failed")
     rfl ⟨.str (pys "http://example.com/a.mp4"), [], rfl⟩
     (by with_unfolding_all decide) (by with_unfolding_all decide)
     (by with_unfolding_all decide)⟩

/-- C10: a plain-string descriptor resolves to no URL, contributes no
fetched clip to acquisition, and yet contributes its whole (sanitized) text
to the Tier-3 caption corpus. -/
theorem c10_string_descriptor (s : PyStr) (env : PipelineEnv) (pre post : List PyVal)
    (hs : s.isEmpty = false) (hclean : (clean_text_for_speech s).isEmpty = false) :
    extract_video_url (.str s) = .ok none
    ∧ downloadedUrls env (pre ++ .str s :: post) = downloadedUrls env (pre ++ post)
    ∧ corpusParts (pre ++ .str s :: post) =
        corpusParts pre ++ clean_text_for_speech s :: corpusParts post := by
  have hs' : s ≠ [] := by intro h; rw [h] at hs; simp at hs
  have hclean' : clean_text_for_speech s ≠ [] := by
    intro h; rw [h] at hclean; simp at hclean
  refine ⟨rfl, ?_, ?_⟩
  · induction pre with
    | nil => simp [downloadedUrls, extract_video_url]
    | cons vi rest ih =>
      simp only [List.cons_append, downloadedUrls]
      cases hx : extract_video_url vi with
      | error e => rfl
      | ok ou =>
        cases ou with
        | none => exact ih
        | some u =>
          by_cases hf : pyTruthy u && env.fetchOk u
          · simp [hf, ih]
          · simp [hf, ih]
  · simp [corpusParts, List.filterMap_append, List.filterMap_cons, videoRawText,
      hs', hclean']

/-- Witness for C10 on a concrete descriptor string. -/
theorem c10_string_descriptor_witness :
    c10text.isEmpty = false
    ∧ (clean_text_for_speech c10text).isEmpty = false
    ∧ (extract_video_url (.str c10text) = .ok none
      ∧ downloadedUrls c10env ([] ++ .str c10text :: []) = downloadedUrls c10env ([] ++ [])
      ∧ corpusParts ([] ++ .str c10text :: []) =
          corpusParts [] ++ clean_text_for_speech c10text :: corpusParts []) :=
  ⟨by with_unfolding_all decide, by with_unfolding_all decide,
   c10_string_descriptor c10text c10env [] []
     (by with_unfolding_all decide) (by with_unfolding_all decide)⟩
